import Mathlib

/-!
Shallow embedding of the ShoreSquad front-end (src/js/app.js) and proofs of
the testable properties stated in its specification.

The application state (`appState` in the source) is a single mutable record;
here it is passed explicitly through every operation.  DOM writes are modelled
as the HTML strings the source assigns to `innerHTML` of the named containers;
the external clock (`Date.now()`), the `prompt` results, the parsed JSON of
the forecast fetch, and the locale/weekday services of the `Date` object are
explicit parameters.
-/

set_option maxRecDepth 100000

namespace ShoreSquad

/-- A single quote character, used inside generated HTML attributes. -/
def sq : String := "\x27"

/-- Model of the Leaflet map object: only its view (center and zoom) is
observable by the code under verification (`getCenter`, `setView`). -/
structure MapView where
  centerLat : Rat
  centerLng : Rat
  zoom : Nat
  deriving DecidableEq, Repr

/-- A crew member record, as seeded by `loadMockData`. -/
structure CrewMember where
  id : Nat
  name : String
  avatar : String
  cleanups : Nat
  itemsCollected : Nat
  deriving DecidableEq, Repr

/-- A cleanup event record (`CleanupEvent` in the spec).  Seeded events carry
`time` and `description`; events created by `createEventMarker` carry
`creator` instead — absent fields are `none` and render as `undefined`,
exactly as an absent JS object property does in a template literal. -/
structure Event where
  id : String
  name : String
  lat : Rat
  lng : Rat
  date : String
  time : Option String
  participants : Nat
  description : Option String
  creator : Option String
  deriving DecidableEq, Repr

/-- A Leaflet marker as observable from the code: position, title, and the
bound popup HTML. -/
structure Marker where
  lat : Rat
  lng : Rat
  title : String
  popup : String
  deriving DecidableEq, Repr

/-- The `appState` record of the source. -/
structure AppState where
  map : Option MapView
  userLocation : Option (Rat × Rat)
  crews : List CrewMember
  events : List Event
  markers : List Marker
  userMarker : Option Marker
  nextCleanupParticipants : Nat
  deriving DecidableEq, Repr

/-- The initial value of `appState`. -/
def initialAppState : AppState :=
  { map := none
    userLocation := none
    crews := []
    events := []
    markers := []
    userMarker := none
    nextCleanupParticipants := 0 }

/-- `config.defaultLocation` (NYC). -/
def defaultLocation : Rat × Rat := (40.7128, -74.0060)

/-- `initializeMap`: sets the map view to the default location at zoom 12. -/
def initializeMap (s : AppState) : AppState :=
  { s with map := some { centerLat := defaultLocation.1
                         centerLng := defaultLocation.2
                         zoom := 12 } }

/-- Rendering of a JS value that may be `undefined` inside a template
literal. -/
def jsField : Option String → String
  | some v => v
  | none => "undefined"

/-- The popup HTML bound to a beach marker (template literal inside
`addBeachMarker`). -/
def popupContent (e : Event) : String :=
  "\n        <div style=\"font-weight: 500;\">\n            🏖️ " ++ e.name ++
  "\n        </div>\n        <div style=\"margin-top: 8px; font-size: 0.9em;\">\n            <p>📅 " ++
  e.date ++ "</p>\n            <p>👥 " ++ toString e.participants ++
  " people</p>\n            <button onclick=\"joinEvent(" ++ sq ++ e.id ++ sq ++
  ")\" style=\"\n                background-color: #0077BE;\n                color: white;\n                border: none;\n                padding: 6px 12px;\n                border-radius: 4px;\n                cursor: pointer;\n                margin-top: 8px;\n            \">Join Event</button>\n        </div>\n    "

/-- `addBeachMarker(lat, lng, name, eventData)`: creates a marker with the
popup bound, pushes it onto `appState.markers`, and returns it. -/
def addBeachMarker (lat lng : Rat) (name : String) (eventData : Event)
    (s : AppState) : AppState × Marker :=
  let m : Marker := { lat := lat, lng := lng, title := name
                      popup := popupContent eventData }
  ({ s with markers := s.markers ++ [m] }, m)

/-- The sample crew list seeded by `loadMockData`. -/
def seedCrews : List CrewMember :=
  [ { id := 1, name := "Alex", avatar := "👨‍🦱", cleanups := 12, itemsCollected := 450 }
  , { id := 2, name := "Jordan", avatar := "👩‍🦰", cleanups := 8, itemsCollected := 320 }
  , { id := 3, name := "Morgan", avatar := "🧑‍🦳", cleanups := 15, itemsCollected := 620 }
  , { id := 4, name := "Casey", avatar := "👩‍🦱", cleanups := 10, itemsCollected := 380 }
  , { id := 5, name := "Riley", avatar := "👨‍🦲", cleanups := 7, itemsCollected := 290 } ]

/-- The sample event list seeded by `loadMockData`. -/
def seedEvents : List Event :=
  [ { id := "event-1", name := "Manhattan Beach Cleanup"
      lat := 40.5731, lng := -73.9712, date := "2025-12-10"
      time := some "10:00 AM", participants := 24
      description := some "Help us clean Manhattan Beach!", creator := none }
  , { id := "event-2", name := "Coney Island Coastal Cleanup"
      lat := 40.5731, lng := -73.9808, date := "2025-12-15"
      time := some "2:00 PM", participants := 18
      description := some "Join our Coney Island cleanup drive", creator := none }
  , { id := "event-3", name := "Rockaway Beach Restoration"
      lat := 40.5755, lng := -73.8185, date := "2025-12-20"
      time := some "9:00 AM", participants := 31
      description := some "Restore Rockaway Beach community event", creator := none } ]

/-- `loadMockData`: overwrites the crew and event collections with the sample
data. -/
def loadMockData (s : AppState) : AppState :=
  { s with crews := seedCrews, events := seedEvents }

/-- The event-card `<li>` template produced for each event by
`renderEvents`. -/
def eventCardHtml (e : Event) : String :=
  "\n        <li class=\"event-card\" role=\"listitem\">\n            <div class=\"event-date\">" ++
  e.date ++ "</div>\n            <h3 class=\"event-title\">" ++ e.name ++
  "</h3>\n            <p class=\"event-location\">📍 Beach Location</p>\n            <p class=\"event-participants\">👥 " ++
  toString e.participants ++
  " people interested</p>\n            <p style=\"color: #7f8c8d; font-size: 0.9rem; margin-top: 8px;\">\n                ⏰ " ++
  jsField e.time ++
  "\n            </p>\n            <p style=\"color: #2C3E50; margin: 8px 0;\">\n                " ++
  jsField e.description ++
  "\n            </p>\n            <button class=\"event-btn\" onclick=\"joinEvent(" ++ sq ++ e.id ++ sq ++
  ")\" aria-label=\"Join event\">\n                ✨ Join Event\n            </button>\n        </li>\n    "

/-- The full `eventsList.innerHTML` produced by `renderEvents`
(`events.map(...).join('')`). -/
def renderEventsHtml (events : List Event) : String :=
  String.join (events.map eventCardHtml)

/-- `renderEvents`: writes the events-list HTML, removes every existing
marker from the map, clears `appState.markers`, and re-adds one beach marker
per event in collection order.  Returns the new state and the HTML written to
`eventsList`. -/
def renderEvents (s : AppState) : AppState × String :=
  let html := renderEventsHtml s.events
  let s1 : AppState := { s with markers := [] }
  let s2 := s1.events.foldl
    (fun t e => (addBeachMarker e.lat e.lng e.name e t).1) s1
  (s2, html)

/-- `joinEvent(eventId)`: finds the event by id; when found, increments its
`participants` by 1 (mutation through the reference returned by `find`) and
re-renders; when not found, does nothing. -/
def incFirst (eventId : String) : List Event → List Event
  | [] => []
  | e :: rest =>
    if e.id == eventId then { e with participants := e.participants + 1 } :: rest
    else e :: incFirst eventId rest

/-- `joinEvent` state transition (the alert is output-only). -/
def joinEvent (eventId : String) (s : AppState) : AppState :=
  match s.events.find? (fun e => e.id == eventId) with
  | some _ => (renderEvents { s with events := incFirst eventId s.events }).1
  | none => s

/-- `joinNextCleanup`: increments the dedicated counter and updates the
`nextCleanupParticipants` text node. -/
def joinNextCleanup (s : AppState) : AppState :=
  { s with nextCleanupParticipants := s.nextCleanupParticipants + 1 }

/-- JS truthiness test applied by `createEventMarker` to the `prompt`
results: `null` (cancel) and the empty string are falsy. -/
def isFalsy : Option String → Bool
  | none => true
  | some v => v == ""

/-- The id assigned by `createEventMarker`: `` `event-${Date.now()}` ``. -/
def newEventId (now : Nat) : String := "event-" ++ toString now

/-- `createEventMarker`: prompts for a name and a date (modelled as the two
`Option String` arguments); aborts on a falsy answer.  Otherwise it reads the
map center, pushes a new event with `participants = 1`, adds its marker, and
re-renders.  `now` is the `Date.now()` reading.  When the map never
initialized, `getCenter` throws before any mutation, so the state is
returned unchanged. -/
def createEventMarker (beachName eventDate : Option String) (now : Nat)
    (s : AppState) : AppState :=
  if isFalsy beachName then s
  else if isFalsy eventDate then s
  else
    match s.map with
    | none => s
    | some m =>
      let newEvent : Event :=
        { id := newEventId now
          name := (beachName.getD "")
          lat := m.centerLat
          lng := m.centerLng
          date := (eventDate.getD "")
          time := none
          participants := 1
          description := none
          creator := some "You" }
      let s1 : AppState := { s with events := s.events ++ [newEvent] }
      let s2 := (addBeachMarker newEvent.lat newEvent.lng newEvent.name newEvent s1).1
      (renderEvents s2).1

/-- A temperature range of a NEA forecast entry. -/
structure TempRange where
  high : Int
  low : Int
  deriving DecidableEq, Repr

/-- A wind-speed range of a NEA forecast entry. -/
structure SpeedRange where
  low : Int
  high : Int
  deriving DecidableEq, Repr

/-- The wind record of a NEA forecast entry. -/
structure Wind where
  direction : String
  speed : SpeedRange
  deriving DecidableEq, Repr

/-- The relative-humidity range of a NEA forecast entry. -/
structure HumidityRange where
  low : Int
  high : Int
  deriving DecidableEq, Repr

/-- One forecast entry of the NEA 4-day-forecast payload. -/
structure NeaForecast where
  date : String
  forecast : String
  temperature : TempRange
  wind : Wind
  relative_humidity : HumidityRange
  deriving DecidableEq, Repr

/-- One item of the NEA payload; `forecasts` may be absent
(the source guards it with `|| []`). -/
structure NeaItem where
  forecasts : Option (List NeaForecast)
  deriving DecidableEq, Repr

/-- The parsed NEA payload; `items` may be absent (the source tests
`data.items && data.items.length > 0`). -/
structure NeaData where
  items : Option (List NeaItem)
  deriving DecidableEq, Repr

/-- Outcome of `fetch` + `response.json()`: the network call may reject, the
response may carry a non-ok status, and the body may fail to parse. -/
inductive FetchResult where
  | netError : FetchResult
  | response (ok : Bool) (json : Option NeaData) : FetchResult
  deriving DecidableEq, Repr

/-- The three HTML fragments `loadWeather` / `loadWeatherFallback` write into
the `weatherInfo`, `forecastInfo` and `waterInfo` containers. -/
structure Panels where
  weatherInfo : String
  forecastInfo : String
  waterInfo : String
  deriving DecidableEq, Repr

/-- External date services used by the weather code: weekday and locale date
of a parsed forecast-date string (`new Date(f.date)`), and weekday / locale
date of `today + i` days in the fallback. -/
structure DateEnv where
  dowOf : String → Fin 7
  localeOf : String → String
  todayDow : Fin 7
  todayLocale : Nat → String

/-- `days` array used for weekday names. -/
def dayNames : List String := ["Sun", "Mon", "Tue", "Wed", "Thu", "Fri", "Sat"]

/-- `Math.round(n / 2)` on an integer `n` (JS rounds halves toward
positive infinity). -/
def jsRoundHalf (n : Int) : Int := Int.fdiv (n + 1) 2

/-- The wave-height bucket of the live water panel:
`currentForecast.wind.speed.low > 10 ? '1.0-1.5m' : '0.5-1.0m'`. -/
def waveBucket (low : Int) : String :=
  if low > 10 then "1.0-1.5m" else "0.5-1.0m"

/-- The live current-weather HTML. -/
def liveWeatherInfo (currentTemp : Int) (cf : NeaForecast) : String :=
  "\n        <div style=\"display: grid; gap: 8px;\">\n            <p><strong>" ++
  toString currentTemp ++
  "°C</strong> - Current Temperature</p>\n            <p>📍 Singapore</p>\n            <p style=\"font-size: 0.9rem; color: #2C3E50;\">\n                " ++
  cf.forecast ++
  "\n            </p>\n            <p style=\"color: #2ecc71; font-weight: 500; margin-top: 8px;\">✓ Live NEA Data</p>\n        </div>\n    "

/-- One row of the live 4-day forecast list. -/
def liveForecastRow (env : DateEnv) (f : NeaForecast) : String :=
  let dayName := dayNames.getD (env.dowOf f.date) ""
  let dateStr := env.localeOf f.date
  "\n        <div style=\"padding: 12px; border-bottom: 1px solid #eee; display: grid; grid-template-columns: 1fr 1fr; gap: 12px;\">\n            <div>\n                <strong>" ++
  dayName ++ "</strong> " ++ dateStr ++
  "\n                <p style=\"font-size: 0.85rem; color: #2C3E50; margin-top: 4px;\">\n                    " ++
  f.forecast ++
  "\n                </p>\n            </div>\n            <div style=\"text-align: right;\">\n                <div style=\"font-size: 0.85rem; color: #7f8c8d; margin-bottom: 4px;\">\n                    💨 " ++
  toString f.wind.speed.low ++ "-" ++ toString f.wind.speed.high ++
  " km/h\n                </div>\n                <div style=\"font-weight: 600; color: #0077BE;\">\n                    " ++
  toString f.temperature.high ++ "°C - " ++ toString f.temperature.low ++
  "°C\n                </div>\n                <div style=\"font-size: 0.8rem; color: #7f8c8d;\">\n                    💧 " ++
  toString f.relative_humidity.low ++ "-" ++ toString f.relative_humidity.high ++
  "%\n                </div>\n            </div>\n        </div>\n    "

/-- The live water-conditions HTML. -/
def liveWaterInfo (avgTemp : Int) (cf : NeaForecast) : String :=
  "\n        <div style=\"display: grid; gap: 8px;\">\n            <p><strong>" ++
  toString (avgTemp - 2) ++
  "°C</strong> Water Temperature</p>\n            <p>🌊 Wave Height: " ++
  waveBucket cf.wind.speed.low ++
  "</p>\n            <p>💨 Wind: " ++ cf.wind.direction ++ " " ++
  toString cf.wind.speed.low ++ "-" ++ toString cf.wind.speed.high ++
  " km/h</p>\n            <p>👁️ Visibility: Good</p>\n            <p style=\"color: #2ecc71; font-weight: 500; margin-top: 8px;\">✓ Good for cleanup!</p>\n        </div>\n    "

/-- The three panels rendered by the successful branch of `loadWeather`;
`cf` is `forecasts[0]`. -/
def liveRender (env : DateEnv) (forecasts : List NeaForecast)
    (cf : NeaForecast) : Panels :=
  let currentTemp := jsRoundHalf (cf.temperature.high + cf.temperature.low)
  let avgTemp := jsRoundHalf (cf.temperature.high + cf.temperature.low)
  { weatherInfo := liveWeatherInfo currentTemp cf
    forecastInfo := String.join ((forecasts.take 4).map (liveForecastRow env))
    waterInfo := liveWaterInfo avgTemp cf }

/-- One entry of the synthetic fallback forecast. -/
structure FallbackDay where
  day : String
  date : String
  condition : String
  high : Int
  low : Int
  deriving DecidableEq, Repr

/-- The four fixed condition strings cycled by the fallback. -/
def forecastConditions : List String :=
  ["☀️ Sunny", "⛅ Partly Cloudy", "☁️ Cloudy", "🌧️ Rainy"]

/-- The synthetic forecast built by the `for (let i = 0; i < 4; i++)` loop of
`loadWeatherFallback`: day `i` is `today + i`, condition `i % 4`,
high `24 - i`, low `18 + i`. -/
def fallbackForecast (env : DateEnv) : List FallbackDay :=
  (List.range 4).map fun i =>
    { day := dayNames.getD ((env.todayDow.val + i) % 7) ""
      date := env.todayLocale i
      condition := forecastConditions.getD (i % 4) ""
      high := 24 - (i : Int)
      low := 18 + (i : Int) }

/-- One row of the fallback forecast list. -/
def fallbackForecastRow (d : FallbackDay) : String :=
  "\n        <div style=\"padding: 12px; border-bottom: 1px solid #eee; display: flex; justify-content: space-between; align-items: center;\">\n            <div>\n                <strong>" ++
  d.day ++ "</strong> " ++ d.date ++
  "\n            </div>\n            <div style=\"text-align: right;\">\n                <div style=\"font-size: 0.95rem; color: #2C3E50; margin-bottom: 4px;\">\n                    " ++
  d.condition ++
  "\n                </div>\n                <div style=\"font-size: 0.85rem; color: #7f8c8d;\">\n                    " ++
  toString d.high ++ "°C - " ++ toString d.low ++
  "°C\n                </div>\n            </div>\n        </div>\n    "

/-- `loadWeatherFallback`: deterministic synthetic data for Singapore, with a
"demo data" indicator in the current-weather panel and a constant 20 °C
water temperature. -/
def loadWeatherFallback (env : DateEnv) : Panels :=
  { weatherInfo :=
      "\n        <div style=\"display: grid; gap: 8px;\">\n            <p><strong>22°C</strong> - Current Temperature</p>\n            <p>📍 Singapore</p>\n            <p style=\"color: #7f8c8d; font-size: 0.9rem;\">⚠️ Using demo data (API unavailable)</p>\n            <p style=\"color: #f39c12; font-weight: 500; margin-top: 8px;\">Typical conditions for Singapore</p>\n        </div>\n    "
    forecastInfo := String.join ((fallbackForecast env).map fallbackForecastRow)
    waterInfo :=
      "\n        <div style=\"display: grid; gap: 8px;\">\n            <p><strong>20°C</strong> Water Temperature</p>\n            <p>🌊 Wave Height: 0.5 - 1.0 m</p>\n            <p>👁️ Visibility: Good</p>\n            <p>💧 Current: Moderate</p>\n            <p style=\"color: #2ecc71; font-weight: 500; margin-top: 8px;\">✓ Good for cleanup!</p>\n        </div>\n    " }

/-- The `try` block of `loadWeather`.  Every abnormal exit of the source's
try block is an `Except.error`: a rejected fetch, a thrown `API error`
on a non-ok status, a rejected `response.json()`, the `TypeError` raised by
reading `forecasts[0].temperature` when the forecast list is empty, and the
explicit `No forecast data available` throw when `items` is absent or
empty. -/
def loadWeatherTry (env : DateEnv) (r : FetchResult) :
    Except String Panels :=
  match r with
  | .netError => .error "fetch rejected"
  | .response ok json =>
    if !ok then .error "API error"
    else
      match json with
      | none => .error "response.json() rejected"
      | some data =>
        match data.items with
        | some (item :: _) =>
          match item.forecasts.getD [] with
          | [] => .error "TypeError: forecasts[0] is undefined"
          | cf :: rest => .ok (liveRender env (cf :: rest) cf)
        | _ => .error "No forecast data available"

/-- `loadWeather`: the try block with its catch, which logs and invokes
`loadWeatherFallback`.  Total: no exception ever reaches the caller. -/
def loadWeather (env : DateEnv) (r : FetchResult) : Panels :=
  match loadWeatherTry env r with
  | .ok p => p
  | .error _ => loadWeatherFallback env

/-- The failure modes named by the specification: network error, non-success
HTTP status, or a response lacking a non-empty `items` array. -/
def specFailure : FetchResult → Bool
  | .netError => true
  | .response ok json =>
    if !ok then true
    else
      match json with
      | none => false
      | some data =>
        match data.items with
        | none => true
        | some [] => true
        | some (_ :: _) => false

/-- Character-list prefix test (`leadsWith pat l` iff `pat` begins `l`). -/
def leadsWith : List Char → List Char → Bool
  | [], _ => true
  | _ :: _, [] => false
  | a :: as, b :: bs => a == b && leadsWith as bs

/-- Occurrence of `pat` as a contiguous sublist of `l`. -/
def occursIn (pat : List Char) : List Char → Bool
  | [] => leadsWith pat []
  | b :: bs => leadsWith pat (b :: bs) || occursIn pat bs

/-- Substring test on strings, used to state "the panel displays …". -/
def hasSub (s pat : String) : Bool := occursIn pat.toList s.toList

/-- The geolocation success handler of `userLocation`: stores the position,
replaces the user marker, and recenters the map at zoom 12. -/
def setUserLocation (latitude longitude : Rat) (s : AppState) : AppState :=
  { s with userLocation := some (latitude, longitude)
           userMarker := some { lat := latitude, lng := longitude
                                title := "Your Location"
                                popup := "📍 You are here" }
           map := (s.map.map fun m =>
             { m with centerLat := latitude, centerLng := longitude, zoom := 12 }) }

/-- The marker `renderEvents` creates for an event
(`addBeachMarker(event.lat, event.lng, event.name, event)`). -/
def markerOfEvent (e : Event) : Marker :=
  { lat := e.lat, lng := e.lng, title := e.name, popup := popupContent e }

/-- A fixed date environment used to instantiate theorems at concrete
inputs. -/
def demoEnv : DateEnv :=
  { dowOf := fun _ => 0
    localeOf := fun _ => "1 Dec"
    todayDow := 0
    todayLocale := fun _ => "01/12/2025" }

/-- A well-formed one-entry NEA payload whose first forecast has the given
low wind speed. -/
def payloadWithLow (low : Int) : FetchResult :=
  .response true (some
    { items := some
        [ { forecasts := some
              [ { date := "2025-12-01"
                  forecast := "Thundery showers"
                  temperature := { high := 30, low := 24 }
                  wind := { direction := "NE", speed := { low := low, high := low + 5 } }
                  relative_humidity := { low := 60, high := 95 } } ] } ] })

/-- Numeric value of a decimal digit character. -/
def digitVal (c : Char) : Nat := c.toNat - 48

/-- Value of a decimal digit string (most significant digit first). -/
def digitsVal (l : List Char) : Nat :=
  l.foldl (fun acc c => acc * 10 + digitVal c) 0

/-- A placeholder fallback-forecast entry (used only as the `getD`
default). -/
def dummyDay : FallbackDay :=
  { day := "", date := "", condition := "", high := 0, low := 0 }

/-! ## Lemmas about the store and its renderer -/

theorem foldAdd (l : List Event) (t : AppState) :
    l.foldl (fun u e => (addBeachMarker e.lat e.lng e.name e u).1) t
      = { t with markers := t.markers ++ l.map markerOfEvent } := by
  induction l generalizing t with
  | nil => simp
  | cons e rest ih =>
    rw [List.foldl_cons, ih]
    simp [addBeachMarker, markerOfEvent]

theorem renderEvents_eq (s : AppState) :
    renderEvents s
      = ({ s with markers := s.events.map markerOfEvent }, renderEventsHtml s.events) := by
  simp [renderEvents, foldAdd]

theorem map_inc_id_of_not_mem (eid : String) (l : List Event)
    (h : ∀ e ∈ l, e.id ≠ eid) :
    l.map (fun e =>
        if e.id = eid then { e with participants := e.participants + 1 } else e)
      = l := by
  induction l with
  | nil => rfl
  | cons e rest ih =>
    simp only [List.map_cons]
    rw [if_neg (h e (by simp)), ih (fun x hx => h x (by simp [hx]))]

theorem incFirst_eq_map (eid : String) (l : List Event)
    (h : (l.map Event.id).Nodup) :
    incFirst eid l
      = l.map (fun e =>
          if e.id = eid then { e with participants := e.participants + 1 } else e) := by
  induction l with
  | nil => rfl
  | cons e rest ih =>
    simp only [List.map_cons, List.nodup_cons, List.mem_map] at h
    by_cases he : e.id = eid
    · have hrest : ∀ x ∈ rest, x.id ≠ eid := by
        intro x hx hxe
        exact h.1 ⟨x, hx, by rw [hxe, he]⟩
      simp [incFirst, he, map_inc_id_of_not_mem eid rest hrest]
    · simp [incFirst, he, ih h.2]

/-- C1: for any id present in the store, `joinEvent` increments exactly that
event's `participants` by 1 and leaves every other event unchanged; for any
id not present, `joinEvent` leaves the entire state unchanged. -/
theorem joinEvent_correct (s : AppState) (eid : String)
    (hids : (s.events.map Event.id).Nodup) :
    ((∃ e ∈ s.events, e.id = eid) →
        (joinEvent eid s).events
          = s.events.map (fun e =>
              if e.id = eid then { e with participants := e.participants + 1 }
              else e))
    ∧ ((∀ e ∈ s.events, e.id ≠ eid) → joinEvent eid s = s) := by
  constructor
  · rintro ⟨e, he, heq⟩
    cases hfind : s.events.find? (fun x => x.id == eid) with
    | none =>
      rw [List.find?_eq_none] at hfind
      exact absurd heq (by simpa using hfind e he)
    | some y =>
      simp [joinEvent, hfind, renderEvents_eq, incFirst_eq_map eid s.events hids]
  · intro h
    have hfind : s.events.find? (fun x => x.id == eid) = none := by
      rw [List.find?_eq_none]
      intro x hx
      simp [h x hx]
    simp [joinEvent, hfind]

theorem joinEvent_correct_witness :
    (((loadMockData initialAppState).events.map Event.id).Nodup)
    ∧ (((∃ e ∈ (loadMockData initialAppState).events, e.id = "event-2") →
          (joinEvent "event-2" (loadMockData initialAppState)).events
            = (loadMockData initialAppState).events.map (fun e =>
                if e.id = "event-2" then
                  { e with participants := e.participants + 1 }
                else e))
        ∧ ((∀ e ∈ (loadMockData initialAppState).events, e.id ≠ "event-2") →
            joinEvent "event-2" (loadMockData initialAppState)
              = loadMockData initialAppState)) :=
  ⟨by decide, joinEvent_correct (loadMockData initialAppState) "event-2" (by decide)⟩

/-- C6: with no intervening store mutation, a second `renderEvents` call
produces byte-identical events-list HTML and an identical marker list
(indeed an identical state). -/
theorem renderEvents_idempotent (s : AppState) :
    (renderEvents (renderEvents s).1).2 = (renderEvents s).2
    ∧ (renderEvents (renderEvents s).1).1.markers = (renderEvents s).1.markers
    ∧ (renderEvents (renderEvents s).1).1 = (renderEvents s).1 := by
  refine ⟨?_, ?_, ?_⟩ <;> simp [renderEvents_eq]

/-- C7: when the name prompt or the date prompt is cancelled or empty,
`createEventMarker` returns with the state completely unchanged: no event is
appended and no marker is added. -/
theorem createEventMarker_aborts (s : AppState) (nameP dateP : Option String)
    (now : Nat) (h : isFalsy nameP = true ∨ isFalsy dateP = true) :
    createEventMarker nameP dateP now s = s := by
  rcases h with h | h
  · simp [createEventMarker, h]
  · by_cases h1 : isFalsy nameP = true <;> simp [createEventMarker, h, h1]

theorem createEventMarker_aborts_witness :
    (isFalsy (some "") = true ∨ isFalsy (some "2025-01-01") = true)
    ∧ createEventMarker (some "") (some "2025-01-01") 0
        (loadMockData initialAppState)
      = loadMockData initialAppState :=
  ⟨Or.inl (by decide),
   createEventMarker_aborts (loadMockData initialAppState) (some "")
     (some "2025-01-01") 0 (Or.inl (by decide))⟩

/-- C8: `renderEvents` discards every previous marker and produces exactly
one marker per event, in collection order; in the 3-event scenario (after
`joinEvent("event-2")`) a re-render yields exactly 3 markers. -/
theorem renderEvents_full_refresh (s : AppState) :
    (renderEvents s).1.markers = s.events.map markerOfEvent
    ∧ (renderEvents s).1.markers.length = s.events.length
    ∧ (renderEvents (joinEvent "event-2"
          (loadMockData (initializeMap initialAppState)))).1.markers.length = 3 := by
  refine ⟨by simp [renderEvents_eq], by simp [renderEvents_eq], by decide⟩

/-- C9: `nextCleanupParticipants` starts at 0, `joinNextCleanup` increments
it by exactly 1 per call, and every other state-changing operation of the
program preserves it. -/
theorem nextCleanupParticipants_spec :
    initialAppState.nextCleanupParticipants = 0
    ∧ (∀ s, (joinNextCleanup s).nextCleanupParticipants
          = s.nextCleanupParticipants + 1)
    ∧ (∀ s, (initializeMap s).nextCleanupParticipants
          = s.nextCleanupParticipants)
    ∧ (∀ s, (loadMockData s).nextCleanupParticipants
          = s.nextCleanupParticipants)
    ∧ (∀ lat lng nm e s, ((addBeachMarker lat lng nm e s).1).nextCleanupParticipants
          = s.nextCleanupParticipants)
    ∧ (∀ s, ((renderEvents s).1).nextCleanupParticipants
          = s.nextCleanupParticipants)
    ∧ (∀ eid s, (joinEvent eid s).nextCleanupParticipants
          = s.nextCleanupParticipants)
    ∧ (∀ nameP dateP now s, (createEventMarker nameP dateP now s).nextCleanupParticipants
          = s.nextCleanupParticipants)
    ∧ (∀ lat lng s, (setUserLocation lat lng s).nextCleanupParticipants
          = s.nextCleanupParticipants) := by
  refine ⟨rfl, fun s => rfl, fun s => rfl, fun s => rfl,
    fun lat lng nm e s => rfl, ?_, ?_, ?_, fun lat lng s => rfl⟩
  · intro s
    simp [renderEvents_eq]
  · intro eid s
    cases hfind : s.events.find? (fun x => x.id == eid) with
    | none => simp [joinEvent, hfind]
    | some y => simp [joinEvent, hfind, renderEvents_eq]
  · intro nameP dateP now s
    by_cases h1 : isFalsy nameP = true
    · simp [createEventMarker, h1]
    · by_cases h2 : isFalsy dateP = true
      · simp [createEventMarker, h1, h2]
      · cases hm : s.map with
        | none => simp [createEventMarker, h1, h2, hm]
        | some m =>
          simp [createEventMarker, h1, h2, hm, renderEvents_eq, addBeachMarker]

/-- C10: the synthetic forecast has exactly 4 entries; entry `i` carries
high `24 - i`, low `18 + i` and the `i`-th of the 4 fixed condition strings;
in particular the 4th entry has equal high and low (both 21). -/
theorem fallbackForecast_entries (env : DateEnv) :
    (fallbackForecast env).length = 4
    ∧ (fallbackForecast env).map (fun d => (d.condition, d.high, d.low))
        = [("☀️ Sunny", 24, 18), ("⛅ Partly Cloudy", 23, 19),
           ("☁️ Cloudy", 22, 20), ("🌧️ Rainy", 21, 21)]
    ∧ ((fallbackForecast env).getD 3 dummyDay).high = 21
    ∧ ((fallbackForecast env).getD 3 dummyDay).low = 21 := by
  refine ⟨rfl, ?_, ?_, ?_⟩ <;> rfl

/-! ## Lemmas about the weather provider -/

/-- C3: on every failure mode named by the spec (network error, non-success
status, or a response lacking a non-empty `items` array) the three panels
show the synthetic dataset; its current-weather panel carries the demo-data
indicator and its water panel shows exactly 20 °C. -/
theorem loadWeather_failure_fallback (env : DateEnv) (r : FetchResult)
    (h : specFailure r = true) :
    loadWeather env r = loadWeatherFallback env
    ∧ hasSub (loadWeather env r).weatherInfo
        "⚠️ Using demo data (API unavailable)" = true
    ∧ hasSub (loadWeather env r).waterInfo
        "<strong>20°C</strong> Water Temperature" = true := by
  have heq : loadWeather env r = loadWeatherFallback env := by
    rcases r with _ | ⟨ok, json⟩
    · rfl
    · cases ok with
      | false => rfl
      | true =>
        rcases json with _ | ⟨items⟩
        · simp [specFailure] at h
        · rcases items with _ | ⟨l⟩
          · rfl
          · rcases l with _ | ⟨item, rest⟩
            · rfl
            · simp [specFailure] at h
  refine ⟨heq, ?_, ?_⟩ <;> rw [heq]
  · rw [show (loadWeatherFallback env).weatherInfo
        = (loadWeatherFallback demoEnv).weatherInfo from rfl]
    decide
  · rw [show (loadWeatherFallback env).waterInfo
        = (loadWeatherFallback demoEnv).waterInfo from rfl]
    decide

theorem loadWeather_failure_fallback_witness :
    specFailure FetchResult.netError = true
    ∧ (loadWeather demoEnv FetchResult.netError = loadWeatherFallback demoEnv
       ∧ hasSub (loadWeather demoEnv FetchResult.netError).weatherInfo
           "⚠️ Using demo data (API unavailable)" = true
       ∧ hasSub (loadWeather demoEnv FetchResult.netError).waterInfo
           "<strong>20°C</strong> Water Temperature" = true) :=
  ⟨by decide, loadWeather_failure_fallback demoEnv FetchResult.netError (by decide)⟩

/-- C4: the wave-height bucket shown by the live water panel is selected by
comparing the first entry's low wind speed against the fixed threshold 10:
strictly above 10 selects the 1.0-1.5 m bucket, at most 10 the 0.5-1.0 m
bucket; in particular low = 12 shows the higher bucket and low = 8 the
lower. -/
theorem waveBucket_threshold :
    (∀ low : Int, 10 < low → waveBucket low = "1.0-1.5m")
    ∧ (∀ low : Int, low ≤ 10 → waveBucket low = "0.5-1.0m")
    ∧ hasSub (loadWeather demoEnv (payloadWithLow 12)).waterInfo
        "🌊 Wave Height: 1.0-1.5m" = true
    ∧ hasSub (loadWeather demoEnv (payloadWithLow 12)).waterInfo
        "0.5-1.0m" = false
    ∧ hasSub (loadWeather demoEnv (payloadWithLow 8)).waterInfo
        "🌊 Wave Height: 0.5-1.0m" = true
    ∧ hasSub (loadWeather demoEnv (payloadWithLow 8)).waterInfo
        "1.0-1.5m" = false := by
  refine ⟨?_, ?_, by decide, by decide, by decide, by decide⟩
  · intro low hlow
    simp [waveBucket, hlow]
  · intro low hlow
    simp [waveBucket, not_lt.mpr hlow]

theorem waveBucket_threshold_witness :
    ((10 : Int) < 12 ∧ waveBucket 12 = "1.0-1.5m")
    ∧ ((8 : Int) ≤ 10 ∧ waveBucket 8 = "0.5-1.0m") :=
  ⟨⟨by decide, waveBucket_threshold.1 12 (by decide)⟩,
   ⟨by decide, waveBucket_threshold.2.1 8 (by decide)⟩⟩

/-- C5: `loadWeather` is total on every fetch outcome: it either renders the
live panels from a validated payload or falls back to the synthetic panels —
no exception escapes the try/catch to the caller. -/
theorem loadWeather_never_throws (env : DateEnv) (r : FetchResult) :
    (∃ cf rest, loadWeatherTry env r = Except.ok (liveRender env (cf :: rest) cf)
        ∧ loadWeather env r = liveRender env (cf :: rest) cf)
    ∨ ((loadWeatherTry env r).isOk = false
        ∧ loadWeather env r = loadWeatherFallback env) := by
  rcases r with _ | ⟨ok, json⟩
  · exact Or.inr ⟨rfl, rfl⟩
  · cases ok with
    | false => exact Or.inr ⟨rfl, rfl⟩
    | true =>
      rcases json with _ | ⟨items⟩
      · exact Or.inr ⟨rfl, rfl⟩
      · rcases items with _ | ⟨l⟩
        · exact Or.inr ⟨rfl, rfl⟩
        · rcases l with _ | ⟨item, rest⟩
          · exact Or.inr ⟨rfl, rfl⟩
          · rcases hf : item.forecasts.getD [] with _ | ⟨cf, fs⟩
            · refine Or.inr ⟨?_, ?_⟩ <;>
                simp [loadWeather, loadWeatherTry, hf, Except.isOk, Except.toBool]
            · refine Or.inl ⟨cf, fs, ?_, ?_⟩ <;>
                simp [loadWeather, loadWeatherTry, hf]

/-! ## Decimal representation of the clock reading

`createEventMarker` builds ids as `event-` followed by `Date.now()` printed
in decimal.  The following lemmas establish that decimal printing of a `Nat`
is injective, so distinct clock readings give distinct ids. -/

theorem toDigitsCore_append (b : Nat) :
    ∀ (fuel n : Nat) (ds : List Char),
      Nat.toDigitsCore b fuel n ds = Nat.toDigitsCore b fuel n [] ++ ds := by
  intro fuel
  induction fuel with
  | zero => intro n ds; rfl
  | succ f ih =>
    intro n ds
    simp only [Nat.toDigitsCore]
    by_cases h : n / b = 0
    · simp [h]
    · rw [if_neg h, if_neg h, ih (n / b) (Nat.digitChar (n % b) :: ds),
        ih (n / b) [Nat.digitChar (n % b)]]
      simp

theorem toDigitsCore_fuel (b : Nat) (hb : 2 ≤ b) :
    ∀ (n f g : Nat), n < f → n < g →
      Nat.toDigitsCore b f n [] = Nat.toDigitsCore b g n [] := by
  intro n
  induction n using Nat.strong_induction_on with
  | _ n ih =>
    intro f g hf hg
    obtain ⟨f1, rfl⟩ : ∃ x, f = x + 1 := ⟨f - 1, by omega⟩
    obtain ⟨g1, rfl⟩ : ∃ x, g = x + 1 := ⟨g - 1, by omega⟩
    simp only [Nat.toDigitsCore]
    by_cases h : n / b = 0
    · simp [h]
    · have hn : 0 < n := by
        rcases Nat.eq_zero_or_pos n with h0 | h0
        · exact absurd (by simp [h0]) h
        · exact h0
      have hlt : n / b < n := Nat.div_lt_self hn hb
      rw [if_neg h, if_neg h, toDigitsCore_append b f1,
        toDigitsCore_append b g1,
        ih (n / b) hlt f1 g1 (by omega) (by omega)]

theorem toDigits_ten (n : Nat) :
    Nat.toDigits 10 n
      = if n < 10 then [Nat.digitChar n]
        else Nat.toDigits 10 (n / 10) ++ [Nat.digitChar (n % 10)] := by
  by_cases h : n < 10
  · have h0 : n / 10 = 0 := (Nat.div_eq_zero_iff (by norm_num)).mpr h
    have hm : n % 10 = n := Nat.mod_eq_of_lt h
    simp [Nat.toDigits, Nat.toDigitsCore, h0, h, hm]
  · have h0 : n / 10 ≠ 0 := fun hc =>
      h ((Nat.div_eq_zero_iff (by norm_num)).mp hc)
    rw [if_neg h]
    show Nat.toDigitsCore 10 (n + 1) n [] = _
    simp only [Nat.toDigitsCore]
    rw [if_neg h0, toDigitsCore_append 10 n (n / 10)]
    congr 1
    have hn : 0 < n := by omega
    exact toDigitsCore_fuel 10 (by norm_num) (n / 10) n (n / 10 + 1)
      (Nat.div_lt_self hn (by norm_num)) (Nat.lt_succ_self _)

theorem digitVal_digitChar (k : Nat) (h : k < 10) :
    digitVal (Nat.digitChar k) = k := by
  interval_cases k <;> decide

theorem digitsVal_append_digit (l : List Char) (c : Char) :
    digitsVal (l ++ [c]) = digitsVal l * 10 + digitVal c := by
  simp [digitsVal, List.foldl_append]

theorem digitsVal_toDigits (n : Nat) : digitsVal (Nat.toDigits 10 n) = n := by
  induction n using Nat.strong_induction_on with
  | _ n ih =>
    rw [toDigits_ten]
    by_cases h : n < 10
    · rw [if_pos h]
      simp [digitsVal, digitVal_digitChar n h]
    · have hn : 0 < n := by omega
      rw [if_neg h, digitsVal_append_digit,
        ih (n / 10) (Nat.div_lt_self hn (by norm_num)),
        digitVal_digitChar (n % 10) (Nat.mod_lt n (by norm_num))]
      omega

theorem natRepr_inj (m n : Nat) (h : Nat.repr m = Nat.repr n) : m = n := by
  have hd : Nat.toDigits 10 m = Nat.toDigits 10 n := by
    have hdata := congrArg String.data h
    simpa [Nat.repr, List.asString] using hdata
  calc m = digitsVal (Nat.toDigits 10 m) := (digitsVal_toDigits m).symm
    _ = digitsVal (Nat.toDigits 10 n) := by rw [hd]
    _ = n := digitsVal_toDigits n

/-- C2 counterexample: the id is derived from the raw clock reading with no
freshness check.  With the seeded store and clock reading 1, the created
event receives id `event-1`, which equals an id already present, leaving
duplicate ids in the store; and two creation calls that observe the same
clock reading (here 5) assign the same id to both events. -/
theorem createEventMarker_id_clash :
    newEventId 1 ∈ (loadMockData (initializeMap initialAppState)).events.map Event.id
    ∧ (createEventMarker (some "Test Beach") (some "2025-01-01") 1
         (loadMockData (initializeMap initialAppState))).events.map Event.id
        = ["event-1", "event-2", "event-3", "event-1"]
    ∧ ¬ ((createEventMarker (some "Test Beach") (some "2025-01-01") 1
           (loadMockData (initializeMap initialAppState))).events.map Event.id).Nodup
    ∧ (createEventMarker (some "B") (some "2025-01-02") 5
         (createEventMarker (some "A") (some "2025-01-01") 5
           (initializeMap initialAppState))).events.map Event.id
        = ["event-5", "event-5"] := by
  refine ⟨by decide, by decide, by decide, by decide⟩

/-- C2 (amended): the created event is appended with id `event-<clock>`;
whenever that string is not already an id in the store — which the code does
not itself check — the new id differs from every existing id, and creation
calls that observe distinct clock readings always produce distinct ids. -/
theorem createEventMarker_id_fresh (s : AppState) (nameP dateP : Option String)
    (now : Nat) (hname : isFalsy nameP = false) (hdate : isFalsy dateP = false)
    (hmap : s.map.isSome = true)
    (hfresh : newEventId now ∉ s.events.map Event.id) :
    (createEventMarker nameP dateP now s).events.map Event.id
        = s.events.map Event.id ++ [newEventId now]
    ∧ (∀ e ∈ s.events, e.id ≠ newEventId now)
    ∧ (∀ m n : Nat, m ≠ n → newEventId m ≠ newEventId n) := by
  obtain ⟨mv, hm⟩ := Option.isSome_iff_exists.mp hmap
  refine ⟨?_, ?_, ?_⟩
  · simp [createEventMarker, hname, hdate, hm, renderEvents_eq, addBeachMarker]
  · intro e he heq
    exact hfresh (List.mem_map.mpr ⟨e, he, heq⟩)
  · intro a c hac heq
    apply hac
    apply natRepr_inj
    have hdata := congrArg String.data heq
    simp only [newEventId, String.data_append] at hdata
    have hlist : (toString a).data = (toString c).data :=
      List.append_cancel_left hdata
    show Nat.repr a = Nat.repr c
    exact congrArg List.asString hlist

theorem createEventMarker_id_fresh_witness :
    (isFalsy (some "Test Beach") = false
      ∧ isFalsy (some "2025-01-01") = false
      ∧ (loadMockData (initializeMap initialAppState)).map.isSome = true
      ∧ newEventId 4 ∉ (loadMockData (initializeMap initialAppState)).events.map Event.id)
    ∧ ((createEventMarker (some "Test Beach") (some "2025-01-01") 4
          (loadMockData (initializeMap initialAppState))).events.map Event.id
        = (loadMockData (initializeMap initialAppState)).events.map Event.id
            ++ [newEventId 4]
      ∧ (∀ e ∈ (loadMockData (initializeMap initialAppState)).events,
            e.id ≠ newEventId 4)
      ∧ (∀ m n : Nat, m ≠ n → newEventId m ≠ newEventId n)) :=
  ⟨⟨by decide, by decide, by decide, by decide⟩,
   createEventMarker_id_fresh (loadMockData (initializeMap initialAppState))
     (some "Test Beach") (some "2025-01-01") 4
     (by decide) (by decide) (by decide) (by decide)⟩

end ShoreSquad
